import Mathlib

/-!
Verification of the Insta_learning backend core: the multi-tier transcript
acquisition pipeline and the AI query/response pipeline that consumes it.

Python code is shallowly embedded: strings are processed as lists of
characters (`String.toList`), Python floats are modelled as exact rationals,
fallible operations return `Option`, and I/O-dependent strategies are
parameterised by the value the external call would produce.
-/

namespace InstaLearning

/-! ## Python string primitives

Models of the Python `str` operations the backend uses:
`str.split(sep)`, `str.strip()`, `str.isdigit()`, `int(...)`, `float(...)`,
`str.lower()`, `str.replace(a, b)`, whitespace `str.split()`, and the
substring membership test `a in b`. -/

/-- Python `s.split(sep)` for a single-character separator: keeps empty
fields, so `"".split(':') == ['']` and `"a::b".split(':') == ['a','','b']`. -/
def pySplitChar (sep : Char) : List Char → List (List Char)
  | [] => [[]]
  | c :: rest =>
    match pySplitChar sep rest with
    | [] => [[]]
    | p :: ps => if c = sep then [] :: p :: ps else (c :: p) :: ps

/-- Python `s.strip()`: remove leading and trailing whitespace. -/
def pyStrip (l : List Char) : List Char :=
  ((l.dropWhile Char.isWhitespace).reverse.dropWhile Char.isWhitespace).reverse

/-- Python `s.isdigit()`: true iff the string is non-empty and all digits. -/
def pyIsDigit (l : List Char) : Bool :=
  !l.isEmpty && l.all Char.isDigit

/-- Decimal value of a digit string (only meaningful on all-digit input). -/
def digitsToNat (l : List Char) : Nat :=
  l.foldl (fun acc c => acc * 10 + (c.toNat - 48)) 0

/-- Python `int(s)` on a decimal literal: optional surrounding whitespace,
optional sign, then one or more digits; anything else raises (`none`). -/
def pyInt (l : List Char) : Option Int :=
  let t := pyStrip l
  match t with
  | '+' :: ds =>
    if !ds.isEmpty && ds.all Char.isDigit then some (digitsToNat ds) else none
  | '-' :: ds =>
    if !ds.isEmpty && ds.all Char.isDigit then some (-(digitsToNat ds : Int)) else none
  | ds =>
    if !ds.isEmpty && ds.all Char.isDigit then some (digitsToNat ds) else none

/-- Split a character list at the first `'e'`/`'E'` (exponent marker). -/
def splitExp : List Char → List Char × Option (List Char)
  | [] => ([], none)
  | c :: rest =>
    if c = 'e' ∨ c = 'E' then ([], some rest)
    else
      match splitExp rest with
      | (m, e) => (c :: m, e)

/-- Split a character list at the first `'.'`. -/
def splitDot : List Char → List Char × Option (List Char)
  | [] => ([], none)
  | c :: rest =>
    if c = '.' then ([], some rest)
    else
      match splitDot rest with
      | (m, e) => (c :: m, e)

/-- Value of a fractional digit string `f` read after a decimal point. -/
def fracValue (f : List Char) : ℚ :=
  (digitsToNat f : ℚ) / (10 : ℚ) ^ f.length

/-- Unsigned mantissa of a Python float literal: `digits`, `digits.`,
`digits.digits` or `.digits`. -/
def pyFloatMantissa (m : List Char) : Option ℚ :=
  match splitDot m with
  | (ip, none) =>
    if !ip.isEmpty && ip.all Char.isDigit then some (digitsToNat ip : ℚ) else none
  | (ip, some fp) =>
    if (!ip.isEmpty || !fp.isEmpty) && ip.all Char.isDigit && fp.all Char.isDigit then
      some ((digitsToNat ip : ℚ) + fracValue fp)
    else none

/-- Signed exponent of a Python float literal. -/
def pyFloatExp (e : List Char) : Option Int :=
  match e with
  | '+' :: ds =>
    if !ds.isEmpty && ds.all Char.isDigit then some (digitsToNat ds) else none
  | '-' :: ds =>
    if !ds.isEmpty && ds.all Char.isDigit then some (-(digitsToNat ds : Int)) else none
  | ds =>
    if !ds.isEmpty && ds.all Char.isDigit then some (digitsToNat ds) else none

/-- Unsigned Python float literal: mantissa with optional exponent part.
(`inf`/`nan` forms are not representable in ℚ and never arise here.) -/
def pyFloatUnsigned (l : List Char) : Option ℚ :=
  match splitExp l with
  | (m, none) => pyFloatMantissa m
  | (m, some e) =>
    match pyFloatMantissa m, pyFloatExp e with
    | some mv, some ev => some (mv * (10 : ℚ) ^ ev)
    | _, _ => none

/-- Python `float(s)` on a numeric literal: optional surrounding whitespace
and sign; malformed input raises (`none`). -/
def pyFloat (l : List Char) : Option ℚ :=
  let t := pyStrip l
  match t with
  | '+' :: r => pyFloatUnsigned r
  | '-' :: r => (pyFloatUnsigned r).map Neg.neg
  | r => pyFloatUnsigned r

/-- Python `sub in s`: contiguous substring membership. -/
def containsSub (sub : List Char) : List Char → Bool
  | [] => sub.isEmpty
  | c :: rest => sub.isPrefixOf (c :: rest) || containsSub sub rest

/-- Python `s.split(sep)` for a multi-character separator. -/
def pySplitStr (sep : List Char) : List Char → List (List Char)
  | [] => [[]]
  | c :: rest =>
    if sep.isPrefixOf (c :: rest) then
      [] :: pySplitStr sep (List.drop (sep.length - 1) rest)
    else
      match pySplitStr sep rest with
      | [] => [[]]
      | p :: ps => (c :: p) :: ps
  termination_by l => l.length
  decreasing_by
    · simp only [List.length_cons, List.length_drop]
      omega
    · simp only [List.length_cons]
      omega

/-- Python whitespace `s.split()`: split on runs of whitespace, drop empties. -/
def pyWords (l : List Char) : List (List Char) :=
  (l.splitOnP Char.isWhitespace).filter (fun w => !w.isEmpty)

/-- Python `s.lower()` (ASCII case fold, enough for the classifier input). -/
def pyLower (l : List Char) : List Char :=
  l.map Char.toLower

/-- Python `s.replace(a, b)` for single characters. -/
def pyReplaceChar (a b : Char) (l : List Char) : List Char :=
  l.map (fun c => if c = a then b else c)

/-! ## Timestamp codec (`backend/utils/helpers.py`)

`format_timestamp` and `parse_timestamp`. Python float arithmetic is
modelled with exact rationals; `x // y` is `⌊x / y⌋` and `x % y` is
`x - y * ⌊x / y⌋` (the Python semantics for a positive divisor). -/

/-- Python `a % b` for floats with `b > 0`. -/
def pyMod (a b : ℚ) : ℚ := a - b * (Rat.floor (a / b) : ℤ)

/-- Python `f"{n:02d}"` for a non-negative number: decimal digits,
left-padded with `'0'` to width 2. -/
def fmt2 (n : Nat) : List Char :=
  if n < 10 then '0' :: Nat.toDigits 10 n else Nat.toDigits 10 n

/-- `format_timestamp` (`backend/utils/helpers.py`). Negative input maps to
`"00:00"`; otherwise `HH:MM:SS` when hours > 0, else `MM:SS`. -/
def format_timestamp (seconds : ℚ) : String :=
  if seconds < 0 then "00:00"
  else
    let hours : Nat := (Rat.floor (seconds / 3600)).toNat
    let minutes : Nat := (Rat.floor (pyMod seconds 3600 / 60)).toNat
    let secs : Nat := (Rat.floor (pyMod seconds 60)).toNat
    if hours > 0 then
      String.mk (fmt2 hours ++ ':' :: fmt2 minutes ++ ':' :: fmt2 secs)
    else
      String.mk (fmt2 minutes ++ ':' :: fmt2 secs)

/-- `parse_timestamp` (`backend/utils/helpers.py`): split on `':'`, read the
parts as `HH:MM:SS`, `MM:SS` or `SS`; any parse failure yields `0.0`. -/
def parse_timestamp (timestamp_str : String) : ℚ :=
  let parts := pySplitChar ':' timestamp_str.toList
  match parts with
  | [p0, p1, p2] =>
    match pyInt p0, pyInt p1, pyFloat p2 with
    | some h, some m, some s => (h : ℚ) * 3600 + (m : ℚ) * 60 + s
    | _, _, _ => 0
  | [p0, p1] =>
    match pyInt p0, pyFloat p1 with
    | some m, some s => (m : ℚ) * 60 + s
    | _, _ => 0
  | [p0] =>
    match pyFloat p0 with
    | some s => s
    | none => 0
  | _ => 0


/-! ## Transcript data model

Python dicts of the transcript pipeline. Dict keys that are only present in
some code paths are modelled as `Option` fields (`none` = key absent). -/

/-- A word with timing (`{'text','start','end'}`); `stop` models `'end'`. -/
structure WordTiming where
  text : List Char
  start : ℚ
  stop : ℚ
deriving DecidableEq

/-- A transcript segment (`{'start','end','text','words'}`). -/
structure Segment where
  start : ℚ
  stop : ℚ
  text : List Char
  words : List WordTiming
deriving DecidableEq

/-- A transcript dict as returned by the extraction tiers. `source`,
`success` and `text` are only present on some tiers. -/
structure TranscriptData where
  segments : List Segment
  duration : ℚ
  language : List Char
  source : Option (List Char) := none
  success : Option Bool := none
  text : Option (List Char) := none
deriving DecidableEq

/-! ## Subtitle parser
(`YouTubeProcessor._parse_subtitle_content` / `_timestamp_to_seconds`,
`backend/video_processing/youtube_processor.py`) -/

/-- `YouTubeProcessor._timestamp_to_seconds`: replace `','` by `'.'`, split on
`':'`, read 3 parts as H:M:S, 2 as M:S, otherwise `float(parts[0])`; any
conversion failure yields `0.0`. -/
def timestamp_to_seconds (timestamp : List Char) : ℚ :=
  let parts := pySplitChar ':' (pyReplaceChar ',' '.' timestamp)
  match parts with
  | [h, m, s] =>
    match pyInt h, pyInt m, pyFloat s with
    | some hv, some mv, some sv => (hv : ℚ) * 3600 + (mv : ℚ) * 60 + sv
    | _, _, _ => 0
  | [m, s] =>
    match pyInt m, pyFloat s with
    | some mv, some sv => (mv : ℚ) * 60 + sv
    | _, _ => 0
  | p0 :: _ =>
    match pyFloat p0 with
    | some v => v
    | none => 0
  | [] => 0

/-- State of the forward scan in `_parse_subtitle_content`. Python appends
the *object* `current_segment` to `segments` when flushing; if the next
timing line is malformed (`len(parts) != 2`) the same object stays open and
later mutations are visible through the already-appended references.
`pending` counts how many references to the open segment sit at the end of
`segments`; they are materialised once the open segment can no longer
change. -/
structure SubtitleScanState where
  done : List Segment
  pending : Nat
  cur : Option Segment

/-- Python truthiness test `current_segment and current_segment.get('text')`. -/
def curHasText (cur : Option Segment) : Bool :=
  match cur with
  | some seg => !seg.text.isEmpty
  | none => false

/-- The pending references to the open segment, with its current value. -/
def pendingSegs (st : SubtitleScanState) : List Segment :=
  match st.cur with
  | some seg => List.replicate st.pending seg
  | none => []

/-- One line of the `_parse_subtitle_content` scan. `none` models the one
uncaught exception: `parts[1].strip().split()[0]` raising `IndexError`. -/
def subtitleScanLine (st : SubtitleScanState) (rawLine : List Char) :
    Option SubtitleScanState :=
  let line := pyStrip rawLine
  if line.isEmpty || pyIsDigit line then some st
  else if containsSub "-->".toList line then
    let st1 := if curHasText st.cur then { st with pending := st.pending + 1 } else st
    match pySplitStr "-->".toList line with
    | [p0, p1] =>
      let startv := timestamp_to_seconds (pyStrip p0)
      match pyWords (pyStrip p1) with
      | [] => none
      | w :: _ =>
        let endv := timestamp_to_seconds w
        some { done := st1.done ++ pendingSegs st1, pending := 0,
               cur := some ⟨startv, endv, [], []⟩ }
    | _ => some st1
  else if "WEBVTT".toList.isPrefixOf line || "NOTE".toList.isPrefixOf line then some st
  else
    match st.cur with
    | none => some st
    | some seg =>
      let seg' :=
        if seg.text.isEmpty then { seg with text := line }
        else { seg with text := seg.text ++ ' ' :: line }
      some { st with cur := some seg' }

/-- Final flush at end of input: append the open segment if it has text,
then materialise all pending references. -/
def subtitleScanFinish (st : SubtitleScanState) : List Segment :=
  let st1 := if curHasText st.cur then { st with pending := st.pending + 1 } else st
  st1.done ++ pendingSegs st1

/-- Word-timing synthesis: evenly divide `(end - start)` across the
whitespace-split tokens of the segment text. -/
def synthWords (seg : Segment) : Segment :=
  if seg.text.isEmpty then seg
  else
    let ws := pyWords seg.text
    let d := (seg.stop - seg.start) / (max ws.length 1 : ℕ)
    { seg with
      words := (List.range ws.length).zipWith
        (fun i w => ⟨w, seg.start + (i : ℚ) * d, seg.start + ((i : ℚ) + 1) * d⟩) ws }

/-- `YouTubeProcessor._parse_subtitle_content`: split into lines, run the
forward scan, flush the final segment, synthesize word timings, and return
`{'segments', 'duration', 'language'}`; any uncaught exception yields the
empty transcript. -/
def parse_subtitle_content (content : List Char) : TranscriptData :=
  let lines := pySplitChar (Char.ofNat 10) content
  match lines.foldlM subtitleScanLine ⟨[], 0, none⟩ with
  | none => { segments := [], duration := 0, language := "en".toList }
  | some st =>
    let segs := (subtitleScanFinish st).map synthWords
    { segments := segs,
      duration := match segs.getLast? with
        | some sg => sg.stop
        | none => 0,
      language := "en".toList }

/-! ## YouTube transcript acquisition pipeline
(`YouTubeProcessor.get_transcript` and its three tiers,
`backend/video_processing/youtube_processor.py`)

Each tier's network/subprocess effect is abstracted by the value it would
produce: `none` models any failure (non-200 status, missing subtitle track,
subprocess error, timeout, exception) that makes the tier return `None`. -/

/-- `extract_transcript_piped` (STEP 1): given the subtitle download a Piped
instance would serve (`(content, languageCode)`), parse it and tag
`source := 'piped_api'`. -/
def extract_transcript_piped (fetch : Option (List Char × List Char)) :
    Option TranscriptData :=
  fetch.map fun cc =>
    { parse_subtitle_content cc.1 with
      source := some "piped_api".toList, language := cc.2 }

/-- `extract_transcript_ytdlp` (STEP 2): given the `.srt` file content
yt-dlp would write, parse it and tag `source := 'yt-dlp'`. -/
def extract_transcript_ytdlp (srtFile : Option (List Char)) :
    Option TranscriptData :=
  srtFile.map fun content =>
    { parse_subtitle_content content with
      source := some "yt-dlp".toList, language := "en".toList }

/-- `transcribe_audio_groq` (STEP 3): given the dict
`transcript_processor.transcribe_with_groq` would return (or `none` for a
failed audio download), return it iff `transcript_data.get('success')`. -/
def transcribe_audio_groq (groqResult : Option TranscriptData) :
    Option TranscriptData :=
  match groqResult with
  | some td => if td.success = some true then some td else none
  | none => none

/-- First non-`None` result of a list of strategy calls. -/
def firstSome (l : List (Option α)) : Option α :=
  (l.filterMap id).head?

/-- Result of `get_transcript` plus which later tiers were entered. -/
structure TierTrace where
  result : Option TranscriptData
  tier2_invoked : Bool
  tier3_invoked : Bool
deriving DecidableEq

/-- `YouTubeProcessor.get_transcript`: try every Piped instance, then
yt-dlp, then Groq Whisper, stopping at the first tier that returns a
transcript. -/
def get_transcript (pipedFetches : List (Option (List Char × List Char)))
    (ytdlpFetch : Option (List Char)) (groqResult : Option TranscriptData) :
    TierTrace :=
  match firstSome (pipedFetches.map extract_transcript_piped) with
  | some t => ⟨some t, false, false⟩
  | none =>
    match extract_transcript_ytdlp ytdlpFetch with
    | some t => ⟨some t, true, false⟩
    | none =>
      match transcribe_audio_groq groqResult with
      | some t => ⟨some t, true, true⟩
      | none => ⟨none, true, true⟩

/-! ## Facebook transcript acquisition pipeline
(`FacebookProcessor.get_transcript` / `_parse_srt`,
`backend/video_processing/facebook_processor.py`): two tiers, yt-dlp
subtitles then Groq Whisper. `_parse_srt` differs from the YouTube parser:
no header skip, the end timestamp is parsed from the whole second timing
part, and no word timings are synthesized. -/

/-- One line of the `FacebookProcessor._parse_srt` scan (never raises). -/
def fbScanLine (st : SubtitleScanState) (rawLine : List Char) :
    SubtitleScanState :=
  let line := pyStrip rawLine
  if line.isEmpty || pyIsDigit line then st
  else if containsSub "-->".toList line then
    let st1 := if curHasText st.cur then { st with pending := st.pending + 1 } else st
    match pySplitStr "-->".toList line with
    | [p0, p1] =>
      { done := st1.done ++ pendingSegs st1, pending := 0,
        cur := some ⟨timestamp_to_seconds (pyStrip p0),
                     timestamp_to_seconds (pyStrip p1), [], []⟩ }
    | _ => st1
  else
    match st.cur with
    | none => st
    | some seg =>
      let seg' :=
        if seg.text.isEmpty then { seg with text := line }
        else { seg with text := seg.text ++ ' ' :: line }
      { st with cur := some seg' }

/-- `FacebookProcessor._parse_srt`. -/
def fb_parse_srt (content : List Char) : TranscriptData :=
  let segs := subtitleScanFinish
    ((pySplitChar (Char.ofNat 10) content).foldl fbScanLine ⟨[], 0, none⟩)
  { segments := segs,
    duration := match segs.getLast? with
      | some sg => sg.stop
      | none => 0,
    language := "en".toList }

/-- `FacebookProcessor.extract_transcript_ytdlp` (STEP 1). -/
def fb_extract_transcript_ytdlp (srtFile : Option (List Char)) :
    Option TranscriptData :=
  srtFile.map fun content =>
    { fb_parse_srt content with
      source := some "yt-dlp".toList, language := "en".toList }

/-- `FacebookProcessor.get_transcript`: yt-dlp subtitles, then Groq Whisper.
The boolean reports whether the second tier was entered. -/
def fb_get_transcript (ytdlpFetch : Option (List Char))
    (groqResult : Option TranscriptData) : Option TranscriptData × Bool :=
  match fb_extract_transcript_ytdlp ytdlpFetch with
  | some t => (some t, false)
  | none => (transcribe_audio_groq groqResult, true)

/-! ## `YouTubeProcessor.process_video` (C2) -/

/-- The `video_info` dict built by `get_video_info_piped`. -/
structure VideoInfo where
  id : List Char
  title : List Char
  description : List Char
  duration : ℚ
  thumbnail : List Char
  uploader : List Char
  views : Int
  subtitles : List (List Char × List Char)
  source : List Char
deriving DecidableEq

/-- The envelope returned by `YouTubeProcessor.process_video`; `Option`
fields model dict keys absent on the error paths. -/
structure ProcessResult where
  success : Bool
  error : Option (List Char) := none
  video_id : Option (List Char) := none
  video_url : Option (List Char) := none
  platform : Option (List Char) := none
  video_info : Option VideoInfo := none
  transcript : Option (Option TranscriptData) := none
  transcript_available : Option Bool := none
deriving DecidableEq

/-- `YouTubeProcessor.process_video`, parameterised by what
`extract_video_id`, `get_video_info` and `get_transcript` return for the
given URL. -/
def process_video (videoUrl : List Char) (videoId : Option (List Char))
    (videoInfo : Option VideoInfo) (transcript : Option TranscriptData) :
    ProcessResult :=
  match videoId with
  | none => { success := false, error := some "Invalid YouTube URL".toList }
  | some vid =>
    match videoInfo with
    | none =>
      { success := false, error := some "Could not fetch video information".toList }
    | some vi =>
      { success := true,
        video_id := some vid,
        video_url := some videoUrl,
        platform := some "youtube".toList,
        video_info := some vi,
        transcript := some transcript,
        transcript_available := some transcript.isSome }


/-! ## Audio transcription adapter
(`TranscriptProcessor.transcribe_with_groq` / `_transcribe_large_audio_groq`,
`backend/transcript_processor.py`)

The pydub audio object is abstracted by its length in milliseconds; the
recursive `transcribe_with_groq` call on each exported chunk file is
abstracted by the per-chunk result `chunkResult k`. -/

/-- A sentence dict (`{'text','start','end','words'}`) from the Whisper
response processing. -/
structure Sentence where
  text : List Char
  start : ℚ
  stop : ℚ
  words : List WordTiming
deriving DecidableEq

/-- The transcript dict built by `backend/transcript_processor.py`. -/
structure GroqTranscript where
  language : List Char
  sentences : List Sentence
  total_duration : ℚ
  word_count : Nat
  sentence_count : Nat
  api_used : List Char
  chunks_processed : Option Nat := none
deriving DecidableEq

/-- Chunk size: `10 * 60 * 1000` ms. -/
def chunkMs : Nat := 10 * 60 * 1000

/-- `len(audio[k*chunkMs : (k+1)*chunkMs])` for a chunk produced by
`range(0, len(audio), chunk_length_ms)`. -/
def chunkLengthMs (totalMs k : Nat) : Nat :=
  min chunkMs (totalMs - k * chunkMs)

/-- Number of chunks `range(0, totalMs, chunkMs)` yields. -/
def numChunks (totalMs : Nat) : Nat :=
  (totalMs + chunkMs - 1) / chunkMs

/-- Shift one word dict by the running chunk offset (`word['start'] +=
current_time; word['end'] += current_time`). -/
def shiftWord (dt : ℚ) (w : WordTiming) : WordTiming :=
  ⟨w.text, w.start + dt, w.stop + dt⟩

/-- Shift one sentence dict and all its words by the running offset. -/
def shiftSentence (dt : ℚ) (s : Sentence) : Sentence :=
  ⟨s.text, s.start + dt, s.stop + dt, s.words.map (shiftWord dt)⟩

/-- One iteration of the chunk loop in `_transcribe_large_audio_groq`:
append the chunk's sentences shifted by `current_time` (when the chunk
produced a non-empty sentence list), then advance `current_time` by
`len(chunk) / 1000`. -/
def chunkStep (totalMs : Nat) (chunkResult : Nat → Option GroqTranscript)
    (acc : List Sentence × ℚ) (k : Nat) : List Sentence × ℚ :=
  let sents :=
    match chunkResult k with
    | some cd =>
      if cd.sentences.isEmpty then acc.1
      else acc.1 ++ cd.sentences.map (shiftSentence acc.2)
    | none => acc.1
  (sents, acc.2 + (chunkLengthMs totalMs k : ℚ) / 1000)

/-- `TranscriptProcessor._transcribe_large_audio_groq`: split into
10-minute chunks, transcribe each, shift timestamps by the cumulative
duration of the preceding chunks, and concatenate; `None` when no chunk
produced sentences. -/
def transcribe_large_audio_groq (totalMs : Nat)
    (chunkResult : Nat → Option GroqTranscript) (language : List Char) :
    Option GroqTranscript :=
  let r := (List.range (numChunks totalMs)).foldl (chunkStep totalMs chunkResult) ([], 0)
  if r.1.isEmpty then none
  else some
    { language := language,
      sentences := r.1,
      total_duration := r.2,
      word_count := (r.1.map (fun s => (pyWords s.text).length)).sum,
      sentence_count := r.1.length,
      api_used := "groq_whisper_chunked".toList,
      chunks_processed := some (numChunks totalMs) }

/-- `TranscriptProcessor.transcribe_with_groq` routing: no API key falls
back to the local-whisper chain (`fallbackResult`); a file over the 25 MB
ceiling is split and transcribed in chunks; otherwise one direct API call
(`directResult`). -/
def transcribe_with_groq (hasApiKey : Bool) (fileSizeBytes totalMs : Nat)
    (chunkResult : Nat → Option GroqTranscript)
    (directResult fallbackResult : Option GroqTranscript)
    (language : List Char) : Option GroqTranscript :=
  if !hasApiKey then fallbackResult
  else if fileSizeBytes > 25 * 1024 * 1024 then
    transcribe_large_audio_groq totalMs chunkResult language
  else directResult

/-- Cumulative duration (seconds) of the chunks before chunk `k`. -/
def chunkOffset (totalMs k : Nat) : ℚ :=
  (((List.range k).map (chunkLengthMs totalMs)).sum : ℕ) / 1000

/-- Specification view of one chunk's contribution: its sentences shifted
by the cumulative duration of all preceding chunks. -/
def chunkShifted (totalMs : Nat) (chunkResult : Nat → Option GroqTranscript)
    (k : Nat) : List Sentence :=
  match chunkResult k with
  | some cd =>
    if cd.sentences.isEmpty then []
    else cd.sentences.map (shiftSentence (chunkOffset totalMs k))
  | none => []


/-! ## Context builder (`AIOrchestrator._prepare_context`,
`backend/ai_orchestrator.py`)

`transcript_data['sentences']` is passed as `Option (List Sentence)`
(`none` models a missing dict or missing key). -/

/-- The literal truncation marker. -/
def truncationMarker : List Char := "... [transcript truncated]".toList

/-- One rendered context line `f"[{time_str}] {text}"`. -/
def renderLine (start : ℚ) (text : List Char) : List Char :=
  '[' :: (format_timestamp start).toList ++ ']' :: ' ' :: text

/-- The sentence loop of `_prepare_context`: skip empty-text sentences,
append whole rendered lines while they fit, and stop with the truncation
marker at the first line that would exceed the budget. -/
def contextLoop (B : Int) : List Sentence → Int → List (List Char)
  | [], _ => []
  | s :: rest, cur =>
    let text := pyStrip s.text
    if text.isEmpty then contextLoop B rest cur
    else
      let line := renderLine s.start text
      if B < cur + (line.length : Int) then [truncationMarker]
      else line :: contextLoop B rest (cur + (line.length : Int))

/-- `AIOrchestrator._prepare_context`: budget `4` characters per token
minus a fixed `2000`-character overhead minus `len(user_query)`, then the
greedy line loop, joined with newlines. -/
def prepare_context (transcript : Option (List Sentence)) (user_query : List Char)
    (max_context_length : Int) : List Char :=
  match transcript with
  | none => "No transcript available.".toList
  | some sentences =>
    let max_transcript_chars := max_context_length * 4 - 2000 - (user_query.length : Int)
    List.intercalate [Char.ofNat 10] (contextLoop max_transcript_chars sentences 0)

/-- Specification view: the rendered lines of the non-empty-text sentences,
in segment order. -/
def renderedLines (sents : List Sentence) : List (List Char) :=
  sents.filterMap fun s =>
    let text := pyStrip s.text
    if text.isEmpty then none else some (renderLine s.start text)

/-- Total character count of a list of lines (newlines not counted, as in
the source). -/
def linesLen (lines : List (List Char)) : Int :=
  ((lines.map List.length).sum : ℕ)


/-! ## Query classifier (`AIOrchestrator._classify_query`,
`backend/ai_models/ai_orchestrator.py`, and `QueryClassifier.classify`,
`backend/ai_orchestrator.py`) -/

/-- Python `any(word in query_lower for word in [...])`. -/
def anyKeyword (kws : List (List Char)) (q : List Char) : Bool :=
  kws.any fun kw => containsSub kw q

/-- `AIOrchestrator._classify_query`: keyword membership against the
lower-cased query, first matching category wins. -/
def classify_query (query : List Char) : List Char :=
  let q := pyLower query
  if anyKeyword ["summary".toList, "summarize".toList, "overview".toList] q then
    "summary".toList
  else if anyKeyword ["word".toList, "vocabulary".toList, "pronunciation".toList,
      "meaning".toList] q then
    "word_analysis".toList
  else if anyKeyword ["sentence".toList, "phrase".toList, "breakdown".toList] q then
    "sentence_analysis".toList
  else if anyKeyword ["translate".toList, "hindi".toList, "translation".toList] q then
    "translation".toList
  else if anyKeyword ["explain".toList, "what is".toList, "how".toList] q then
    "explanation".toList
  else if anyKeyword ["quiz".toList, "question".toList, "test".toList] q then
    "quiz".toList
  else
    "general".toList

/-- `QueryClassifier.classify` (`backend/ai_orchestrator.py`): the duplicate
classifier variant with Hindi keywords and a `coding` category. -/
def queryClassifier_classify (query : List Char) : List Char :=
  let q := pyLower query
  if anyKeyword ["summary".toList, "summarize".toList, "overview".toList,
      "brief".toList] q then
    "summary".toList
  else if anyKeyword ["word".toList, "vocabulary".toList, "pronunciation".toList,
      "meaning".toList, "अर्थ".toList, "उच्चारण".toList] q then
    "word_analysis".toList
  else if anyKeyword ["quiz".toList, "question".toList, "test".toList,
      "exam".toList, "प्रश्न".toList] q then
    "quiz".toList
  else if anyKeyword ["translate".toList, "hindi".toList, "english".toList,
      "language".toList, "भाषा".toList, "अनुवाद".toList] q then
    "translation".toList
  else if anyKeyword ["explain".toList, "what is".toList, "how to".toList,
      "why".toList, "कैसे".toList, "क्यों".toList] q then
    "explanation".toList
  else if anyKeyword ["code".toList, "program".toList, "function".toList,
      "algorithm".toList, "कोड".toList] q then
    "coding".toList
  else
    "general".toList

/-! ## Response sync annotator

The regex `\[(\d{1,2}):(\d{2})(?::(\d{2}))?\]` shared by
`SyncManager.add_clickable_timestamps` (`backend/utils/sync_manager.py`) and
`AIOrchestrator._add_sync_markers` (`backend/ai_orchestrator.py`), with
`re.sub` semantics: leftmost non-overlapping matches, greedy quantifiers. -/

/-- The captured groups of one match: `(\d{1,2})`, `(\d{2})`, optional
`(\d{2})`. -/
structure TsGroups where
  g1 : List Char
  g2 : List Char
  g3 : Option (List Char)
deriving DecidableEq

/-- Match `:(\d{2})` then the optional `(?::(\d{2}))?` (greedy) then the
closing `]`; returns the groups 2 and 3 and the unconsumed tail. -/
def matchTsTail (r : List Char) : Option ((List Char × Option (List Char)) × List Char) :=
  match r with
  | ':' :: m1 :: m2 :: rest =>
    if m1.isDigit && m2.isDigit then
      match rest with
      | ':' :: s1 :: s2 :: ']' :: rest2 =>
        if s1.isDigit && s2.isDigit then some (([m1, m2], some [s1, s2]), rest2)
        else
          match rest with
          | ']' :: rest3 => some (([m1, m2], none), rest3)
          | _ => none
      | ']' :: rest2 => some (([m1, m2], none), rest2)
      | _ => none
    else none
  | _ => none

/-- Try to match the full timestamp pattern at the head of the text:
`[`, one or two digits (greedy, with backtracking), then `matchTsTail`. -/
def matchTsAt (l : List Char) : Option (TsGroups × List Char) :=
  match l with
  | '[' :: a :: rest =>
    if a.isDigit then
      match rest with
      | b :: rest2 =>
        if b.isDigit then
          match matchTsTail rest2 with
          | some ((g2, g3), r) => some (⟨[a, b], g2, g3⟩, r)
          | none =>
            match matchTsTail (b :: rest2) with
            | some ((g2, g3), r) => some (⟨[a], g2, g3⟩, r)
            | none => none
        else
          match matchTsTail (b :: rest2) with
          | some ((g2, g3), r) => some (⟨[a], g2, g3⟩, r)
          | none => none
      | [] => none
    else none
  | _ => none

/-- `match.group(0)`: the matched bracket text, rebuilt from the groups. -/
def tsOriginal (g : TsGroups) : List Char :=
  '[' :: g.g1 ++ ':' :: g.g2 ++
    (match g.g3 with
     | some s3 => ':' :: s3 ++ [']']
     | none => [']'])

/-- `re.sub(pattern, repl, text)` scan, with fuel: scan left to right,
replace each non-overlapping match, advance one character where no match
starts. Every step consumes at least one character, so `fuel = length`
(as used by `reSubTs`) never runs out. -/
def reSubTsGo (repl : TsGroups → List Char) : Nat → List Char → List Char
  | 0, l => l
  | _ + 1, [] => []
  | fuel + 1, c :: rest =>
    match matchTsAt (c :: rest) with
    | some (g, r) => repl g ++ reSubTsGo repl fuel r
    | none => c :: reSubTsGo repl fuel rest

/-- `re.sub(timestamp_pattern, repl, text)`. -/
def reSubTs (repl : TsGroups → List Char) (l : List Char) : List Char :=
  reSubTsGo repl l.length l

/-- Decimal rendering of a Python int (all values here are non-negative). -/
def natToStr (n : Nat) : List Char := Nat.toDigits 10 n

/-- The replacement of `SyncManager.add_clickable_timestamps`: when the
optional seconds group is absent the match is read as MM:SS
(minutes from group 1, seconds from group 2). -/
def clickableRepl (g : TsGroups) : List Char :=
  let hours := match g.g3 with | some _ => digitsToNat g.g1 | none => 0
  let minutes := match g.g3 with | some _ => digitsToNat g.g2 | none => digitsToNat g.g1
  let seconds := match g.g3 with | some s3 => digitsToNat s3 | none => digitsToNat g.g2
  let total := hours * 3600 + minutes * 60 + seconds
  "<span class=\"timestamp\" data-time=\"".toList ++ natToStr total ++
    "\" onclick=\"jumpToTime(".toList ++ natToStr total ++ ")\">".toList ++
    tsOriginal g ++ "</span>".toList

/-- `SyncManager.add_clickable_timestamps` (`backend/utils/sync_manager.py`). -/
def add_clickable_timestamps (text : List Char) : List Char :=
  reSubTs clickableRepl text

/-- The replacement of `AIOrchestrator._add_sync_markers`
(`backend/ai_orchestrator.py`): `minutes` is always `int(match.group(2))`
and `seconds` is 0 when the optional group is absent, so an MM:SS match
reads its minutes from the seconds digits. -/
def syncMarkerRepl (g : TsGroups) : List Char :=
  let hours := match g.g3 with | some _ => digitsToNat g.g1 | none => 0
  let minutes := digitsToNat g.g2
  let seconds := match g.g3 with | some s3 => digitsToNat s3 | none => 0
  let total := hours * 3600 + minutes * 60 + seconds
  "<span class=\"sync-timestamp\" data-time=\"".toList ++ natToStr total ++
    "\" data-sync=\"true\">".toList ++ tsOriginal g ++ "</span>".toList

/-- `AIOrchestrator._add_sync_markers` (`backend/ai_orchestrator.py`). -/
def add_sync_markers (text : List Char) : List Char :=
  reSubTs syncMarkerRepl text

/-! ## Model orchestrator cache and query processing
(`AIOrchestrator.process_query`, `_generate_cache_key`,
`_get_cached_response`, `_cache_response`, `backend/ai_orchestrator.py`)

`self.response_cache` is a Python dict in insertion order, modelled as an
association list. `time.time()` is passed in as `now`. The md5 hash of the
key string is modelled by the key string itself (the hash is a
deterministic function of it, which is all the cache behaviour uses). The
provider adapters are abstracted by the response the dispatched call would
return; the third component of the result counts provider invocations. -/

/-- A query response dict; `cached` is the top-level key set on cache hits
and `metadata_cached` the `metadata['cached']` flag. -/
structure QueryResponse where
  success : Bool
  text : List Char
  error : Option (List Char) := none
  cached : Option Bool := none
  metadata_cached : Option Bool := none
deriving DecidableEq

/-- One cache slot: `{'response': ..., 'cache_time': ...}`. -/
structure CacheEntry where
  response : QueryResponse
  cache_time : ℚ
deriving DecidableEq

/-- The cache dict. -/
abbrev CacheState := List (List Char × CacheEntry)

/-- `_generate_cache_key`: the key string
`f"{session_id or 'no_session'}:{model_id}:{query}:{transcript_sample}"`. -/
def generate_cache_key (session_id : Option (List Char))
    (model_id query tsample : List Char) : List Char :=
  (match session_id with
   | some sid => sid
   | none => "no_session".toList) ++
    ':' :: model_id ++ ':' :: query ++ ':' :: tsample

/-- Dict lookup `cache_key in self.response_cache`. -/
def lookupKey (cache : CacheState) (key : List Char) : Option CacheEntry :=
  match cache with
  | [] => none
  | kv :: rest => if kv.1 = key then some kv.2 else lookupKey rest key

/-- Dict deletion `del self.response_cache[cache_key]`. -/
def removeKey (cache : CacheState) (key : List Char) : CacheState :=
  match cache with
  | [] => []
  | kv :: rest => if kv.1 = key then rest else kv :: removeKey rest key

/-- Dict write `self.response_cache[k] = v`: update in place if the key
exists, else append. -/
def insertKey (cache : CacheState) (key : List Char) (e : CacheEntry) : CacheState :=
  match lookupKey cache key with
  | some _ => cache.map fun kv => if kv.1 = key then (key, e) else kv
  | none => cache ++ [(key, e)]

/-- Index and value of the first minimal element
(`min(keys, key=lambda k: cache_time)` with Python's first-wins ties). -/
def firstMinAux : List ℚ → Option (Nat × ℚ)
  | [] => none
  | t :: rest =>
    match firstMinAux rest with
    | none => some (0, t)
    | some (i, v) => if t ≤ v then some (0, t) else some (i + 1, v)

/-- Evict the entry with the oldest `cache_time`. -/
def removeOldest (cache : CacheState) : CacheState :=
  match firstMinAux (cache.map fun kv => kv.2.cache_time) with
  | some (i, _) => cache.eraseIdx i
  | none => cache

/-- `self.cache_ttl = 300`. -/
def cache_ttl : ℚ := 300

/-- `self.cache_max_size = 100`. -/
def cache_max_size : Nat := 100

/-- `_get_cached_response`: return the cached response while the TTL
holds, lazily deleting an expired entry. -/
def get_cached_response (cache : CacheState) (key : List Char) (now : ℚ) :
    Option QueryResponse × CacheState :=
  match lookupKey cache key with
  | some e =>
    if now - e.cache_time < cache_ttl then (some e.response, cache)
    else (none, removeKey cache key)
  | none => (none, cache)

/-- `_cache_response`: evict the oldest entry when the cache is full, then
write the new entry. -/
def cache_response (cache : CacheState) (key : List Char) (resp : QueryResponse)
    (now : ℚ) : CacheState :=
  let cache1 := if cache.length ≥ cache_max_size then removeOldest cache else cache
  insertKey cache1 key ⟨resp, now⟩

/-- `AIOrchestrator.process_query`: cache check, model validation,
dispatch, metadata + sync post-processing, cache write. The returned `Nat`
counts provider-adapter invocations; `providerResp` is the response the
adapter would return if invoked. On a cache hit the stored dict is mutated
(`cached_response['cached'] = True`) and returned. -/
def process_query (cache : CacheState) (now : ℚ) (session_id : Option (List Char))
    (model_id query tsample : List Char) (available : List (List Char))
    (supports_timestamps enable_sync : Bool) (providerResp : QueryResponse) :
    QueryResponse × CacheState × Nat :=
  let key := generate_cache_key session_id model_id query tsample
  match get_cached_response cache key now with
  | (some r, cache') =>
    let r' := { r with cached := some true }
    (r', cache'.map fun kv => if kv.1 = key then (key, { kv.2 with response := r' }) else kv, 0)
  | (none, cache') =>
    if model_id ∈ available then
      if providerResp.success then
        let resp1 := { providerResp with metadata_cached := some false }
        let resp2 :=
          if enable_sync && supports_timestamps then
            { resp1 with text := add_sync_markers resp1.text }
          else resp1
        (resp2, cache_response cache' key resp2 now, 1)
      else (providerResp, cache', 1)
    else
      ({ success := false, text := [],
         error := some ("Model ".toList ++ model_id ++ " is not available".toList) },
        cache', 0)

/-! ## Lemmas: timestamp codec -/

/-- `Rat.floor` agrees with the `Int.floor` of the `FloorRing` instance. -/
theorem ratFloor_eq (q : ℚ) : (Rat.floor q : ℤ) = ⌊q⌋ := by
  rw [Rat.floor_def', Rat.floor_def]

theorem pySplitChar_ne_nil (sep : Char) (l : List Char) : pySplitChar sep l ≠ [] := by
  cases l with
  | nil => simp [pySplitChar]
  | cons c rest =>
    simp only [pySplitChar]
    rcases h : pySplitChar sep rest with _ | ⟨p, ps⟩
    · simp
    · by_cases hc : c = sep <;> simp [hc]

theorem pySplitChar_no_sep (sep : Char) (a : List Char) (h : sep ∉ a) :
    pySplitChar sep a = [a] := by
  induction a with
  | nil => rfl
  | cons c rest ih =>
    have hc : c ≠ sep := fun hcs => h (hcs ▸ List.mem_cons_self c rest)
    have hrest : sep ∉ rest := fun hm => h (List.mem_cons_of_mem c hm)
    simp only [pySplitChar, ih hrest]
    simp [hc]

theorem pySplitChar_append (sep : Char) (a b : List Char) (h : sep ∉ a) :
    pySplitChar sep (a ++ sep :: b) = a :: pySplitChar sep b := by
  induction a with
  | nil =>
    simp only [List.nil_append, pySplitChar]
    rcases hb : pySplitChar sep b with _ | ⟨p, ps⟩
    · exact absurd hb (pySplitChar_ne_nil sep b)
    · simp
  | cons c rest ih =>
    have hc : c ≠ sep := fun hcs => h (hcs ▸ List.mem_cons_self c rest)
    have hrest : sep ∉ rest := fun hm => h (List.mem_cons_of_mem c hm)
    rw [List.cons_append]
    show (match pySplitChar sep (rest ++ sep :: b) with
      | [] => [[]]
      | p :: ps => if c = sep then [] :: p :: ps else (c :: p) :: ps) =
      (c :: rest) :: pySplitChar sep b
    rw [ih hrest]
    simp [hc]

theorem fmt2_colonFree : ∀ n, n < 100 → ':' ∉ fmt2 n := by decide

theorem pyInt_fmt2 : ∀ n, n < 100 → pyInt (fmt2 n) = some (n : ℤ) := by decide

theorem pyFloat_fmt2 : ∀ n, n < 100 → pyFloat (fmt2 n) = some (n : ℚ) := by decide

theorem pyMod_nonneg (a : ℚ) {b : ℚ} (hb : 0 < b) : 0 ≤ pyMod a b := by
  have hfr : pyMod a b = b * Int.fract (a / b) := by
    unfold pyMod
    rw [ratFloor_eq, Int.fract]
    field_simp
  rw [hfr]
  exact mul_nonneg hb.le (Int.fract_nonneg _)

theorem pyMod_lt (a : ℚ) {b : ℚ} (hb : 0 < b) : pyMod a b < b := by
  have hfr : pyMod a b = b * Int.fract (a / b) := by
    unfold pyMod
    rw [ratFloor_eq, Int.fract]
    field_simp
  rw [hfr]
  calc b * Int.fract (a / b) < b * 1 := by
        exact mul_lt_mul_of_pos_left (Int.fract_lt_one _) hb
    _ = b := mul_one b

/-- Decomposition of the floor of a seconds value into the H/M/S fields
computed by `format_timestamp`. -/
theorem floor_decompose (s : ℚ) :
    3600 * ⌊s / 3600⌋ + 60 * ⌊pyMod s 3600 / 60⌋ + ⌊pyMod s 60⌋ = ⌊s⌋ := by
  have h1 : pyMod s 3600 / 60 = s / 60 - ((60 * ⌊s / 3600⌋ : ℤ) : ℚ) := by
    unfold pyMod
    rw [ratFloor_eq]
    push_cast
    ring
  have h2 : pyMod s 60 = s - ((60 * ⌊s / 60⌋ : ℤ) : ℚ) := by
    unfold pyMod
    rw [ratFloor_eq]
    push_cast
    ring
  rw [h1, h2, Int.floor_sub_int, Int.floor_sub_int]
  ring

/-- C6: for every seconds value s in [0, 359999], parsing the formatted
timestamp returns the floor of s: `parse_timestamp (format_timestamp s) = ⌊s⌋`,
where `format_timestamp` renders HH:MM:SS when hours > 0 and MM:SS otherwise,
truncating fractional seconds. -/
theorem C6_timestamp_round_trip (s : ℚ) (h0 : 0 ≤ s) (h1 : s ≤ 359999) :
    parse_timestamp (format_timestamp s) = ((⌊s⌋ : ℤ) : ℚ) := by
  have hneg : ¬ s < 0 := not_lt.2 h0
  have hH0 : (0 : ℤ) ≤ ⌊s / 3600⌋ := Int.le_floor.2 (by positivity)
  have hH100 : ⌊s / 3600⌋ < 100 := Int.floor_lt.2 (by
    rw [div_lt_iff₀ (by norm_num : (0:ℚ) < 3600)]
    norm_num
    linarith)
  have hM0 : (0 : ℤ) ≤ ⌊pyMod s 3600 / 60⌋ := Int.le_floor.2 (by
    have := pyMod_nonneg s (b := 3600) (by norm_num)
    positivity)
  have hM60 : ⌊pyMod s 3600 / 60⌋ < 60 := Int.floor_lt.2 (by
    have := pyMod_lt s (b := 3600) (by norm_num)
    rw [div_lt_iff₀ (by norm_num : (0:ℚ) < 60)]
    norm_num
    linarith)
  have hS0 : (0 : ℤ) ≤ ⌊pyMod s 60⌋ := Int.le_floor.2 (pyMod_nonneg s (by norm_num))
  have hS60 : ⌊pyMod s 60⌋ < 60 := Int.floor_lt.2 (by
    have := pyMod_lt s (b := 60) (by norm_num)
    norm_num
    linarith)
  have hHn : (⌊s / 3600⌋).toNat < 100 := by omega
  have hMn : (⌊pyMod s 3600 / 60⌋).toNat < 100 := by omega
  have hSn : (⌊pyMod s 60⌋).toNat < 100 := by omega
  unfold format_timestamp
  rw [if_neg hneg]
  simp only [ratFloor_eq]
  by_cases hH : 0 < ⌊s / 3600⌋
  · rw [if_pos (by omega : (⌊s / 3600⌋).toNat > 0)]
    unfold parse_timestamp
    have hsplit : pySplitChar ':' (String.mk
        ((fmt2 (⌊s / 3600⌋).toNat ++ ':' :: fmt2 (⌊pyMod s 3600 / 60⌋).toNat) ++
          ':' :: fmt2 (⌊pyMod s 60⌋).toNat)).toList =
        [fmt2 (⌊s / 3600⌋).toNat, fmt2 (⌊pyMod s 3600 / 60⌋).toNat,
          fmt2 (⌊pyMod s 60⌋).toNat] := by
      show pySplitChar ':' ((fmt2 (⌊s / 3600⌋).toNat ++ ':' :: fmt2 (⌊pyMod s 3600 / 60⌋).toNat) ++
          ':' :: fmt2 (⌊pyMod s 60⌋).toNat) = _
      rw [List.append_assoc, List.cons_append]
      rw [pySplitChar_append _ _ _ (fmt2_colonFree _ hHn)]
      rw [pySplitChar_append _ _ _ (fmt2_colonFree _ hMn)]
      rw [pySplitChar_no_sep _ _ (fmt2_colonFree _ hSn)]
    rw [hsplit]
    simp only [pyInt_fmt2 _ hHn, pyInt_fmt2 _ hMn, pyFloat_fmt2 _ hSn]
    rw [← floor_decompose s]
    rw [Int.toNat_of_nonneg hH0, Int.toNat_of_nonneg hM0]
    rw [show ((⌊pyMod s 60⌋.toNat : ℕ) : ℚ) = ((⌊pyMod s 60⌋ : ℤ) : ℚ) from by
      rw [← Int.cast_natCast, Int.toNat_of_nonneg hS0]]
    push_cast
    ring
  · have hHz : ⌊s / 3600⌋ = 0 := le_antisymm (not_lt.1 hH) hH0
    rw [if_neg (by omega : ¬ (⌊s / 3600⌋).toNat > 0)]
    unfold parse_timestamp
    have hsplit : pySplitChar ':' (String.mk
        (fmt2 (⌊pyMod s 3600 / 60⌋).toNat ++ ':' :: fmt2 (⌊pyMod s 60⌋).toNat)).toList =
        [fmt2 (⌊pyMod s 3600 / 60⌋).toNat, fmt2 (⌊pyMod s 60⌋).toNat] := by
      show pySplitChar ':' (fmt2 (⌊pyMod s 3600 / 60⌋).toNat ++
          ':' :: fmt2 (⌊pyMod s 60⌋).toNat) = _
      rw [pySplitChar_append _ _ _ (fmt2_colonFree _ hMn)]
      rw [pySplitChar_no_sep _ _ (fmt2_colonFree _ hSn)]
    rw [hsplit]
    simp only [pyInt_fmt2 _ hMn, pyFloat_fmt2 _ hSn]
    rw [← floor_decompose s, hHz]
    rw [Int.toNat_of_nonneg hM0]
    rw [show ((⌊pyMod s 60⌋.toNat : ℕ) : ℚ) = ((⌊pyMod s 60⌋ : ℤ) : ℚ) from by
      rw [← Int.cast_natCast, Int.toNat_of_nonneg hS0]]
    push_cast
    ring

/-- Witness for C6 at the concrete input s = 7325/2 = 3662.5. -/
theorem C6_timestamp_round_trip_witness :
    (0 : ℚ) ≤ 7325 / 2 ∧ (7325 / 2 : ℚ) ≤ 359999 ∧
      parse_timestamp (format_timestamp (7325 / 2)) = 3662 := by
  refine ⟨by norm_num, by norm_num, ?_⟩
  have h := C6_timestamp_round_trip (7325 / 2) (by norm_num) (by norm_num)
  rw [h]
  norm_num

/-- C7: the timestamp codec fails soft: `parse_timestamp` maps the malformed
inputs "garbage" and "" to 0.0 instead of raising, and `format_timestamp` of
the negative input -5 returns "00:00". -/
theorem C7_codec_soft_fail :
    parse_timestamp "garbage" = 0 ∧ parse_timestamp "" = 0 ∧
      format_timestamp (-5) = "00:00" := by
  refine ⟨by decide, by decide, by decide⟩

/-! ## Lemmas: transcript acquisition pipeline -/

theorem firstSome_eq_some {α β : Type} (f : α → Option β) (l : List α) (t : β)
    (h : firstSome (l.map f) = some t) : ∃ x ∈ l, f x = some t := by
  unfold firstSome at h
  have hmem : some t ∈ l.map f := by
    have h2 := List.mem_of_mem_head? (l := (l.map f).filterMap id) (by rw [h]; exact rfl)
    rcases List.mem_filterMap.1 h2 with ⟨o, ho, hid⟩
    simp only [id_eq] at hid
    rwa [hid] at ho
  rcases List.mem_map.1 hmem with ⟨x, hx, hfx⟩
  exact ⟨x, hx, hfx⟩

/-- C1: per platform the pipeline tries its fixed ordered strategy list
(YouTube: Piped instances, then yt-dlp, then Groq audio transcription;
Facebook: yt-dlp, then Groq) and stops at the first strategy returning a
transcript: a Piped success is returned as-is with `source = 'piped_api'`
and tiers 2 and 3 are never entered; if all Piped instances fail, a yt-dlp
success is returned with `source = 'yt-dlp'` and tier 3 is never entered;
only if both earlier tiers fail does the Groq tier run. -/
theorem C1_pipeline_fallback_ordering
    (fs : List (Option (List Char × List Char))) (yt : Option (List Char))
    (gq : Option TranscriptData) :
    (∀ t, firstSome (fs.map extract_transcript_piped) = some t →
        get_transcript fs yt gq = ⟨some t, false, false⟩ ∧
          t.source = some "piped_api".toList) ∧
    (firstSome (fs.map extract_transcript_piped) = none →
      ∀ t, extract_transcript_ytdlp yt = some t →
        get_transcript fs yt gq = ⟨some t, true, false⟩ ∧
          t.source = some "yt-dlp".toList) ∧
    (firstSome (fs.map extract_transcript_piped) = none →
      extract_transcript_ytdlp yt = none →
        get_transcript fs yt gq = ⟨transcribe_audio_groq gq, true, true⟩) ∧
    (∀ t, fb_extract_transcript_ytdlp yt = some t →
        fb_get_transcript yt gq = (some t, false) ∧
          t.source = some "yt-dlp".toList) ∧
    (fb_extract_transcript_ytdlp yt = none →
      fb_get_transcript yt gq = (transcribe_audio_groq gq, true)) := by
  refine ⟨?_, ?_, ?_, ?_, ?_⟩
  · intro t ht
    constructor
    · simp [get_transcript, ht]
    · rcases firstSome_eq_some _ _ _ ht with ⟨x, _, hfx⟩
      cases x with
      | none => simp [extract_transcript_piped] at hfx
      | some cc =>
        simp only [extract_transcript_piped, Option.map_some] at hfx
        rw [← Option.some.injEq] at hfx
        cases hfx
        rfl
  · intro h1 t ht
    constructor
    · simp [get_transcript, h1, ht]
    · cases yt with
      | none => simp [extract_transcript_ytdlp] at ht
      | some content =>
        simp only [extract_transcript_ytdlp, Option.map_some] at ht
        cases ht
        rfl
  · intro h1 h2
    cases hg : transcribe_audio_groq gq with
    | none => simp [get_transcript, h1, h2, hg]
    | some t => simp [get_transcript, h1, h2, hg]
  · intro t ht
    constructor
    · simp [fb_get_transcript, ht]
    · cases yt with
      | none => simp [fb_extract_transcript_ytdlp] at ht
      | some content =>
        simp only [fb_extract_transcript_ytdlp, Option.map_some] at ht
        cases ht
        rfl
  · intro h1
    simp [fb_get_transcript, h1]

/-- Witness for C1: tier 1 fails (one Piped instance, no track), tier 2
produces a transcript; tier 3 is not entered and the result is tagged
`source = 'yt-dlp'`. -/
theorem C1_pipeline_fallback_ordering_witness :
    (get_transcript [none] (some "00:00:01,000 --> 00:00:03,000\nHi\n".toList)
        none).tier3_invoked = false ∧
    ((get_transcript [none] (some "00:00:01,000 --> 00:00:03,000\nHi\n".toList)
        none).result.bind TranscriptData.source) = some "yt-dlp".toList := by
  have h := (C1_pipeline_fallback_ordering [none]
    (some "00:00:01,000 --> 00:00:03,000\nHi\n".toList) none).2.1 rfl _ rfl
  rw [h.1]
  exact ⟨rfl, by simp [h.2]⟩

/-- C2: if every acquisition strategy fails, `get_transcript` returns no
transcript (not an error value), and `process_video` on a resolvable video
still returns `success = true` with the transcript key set to `None` and
`transcript_available = false`. -/
theorem C2_all_tiers_fail_soft (url vid : List Char) (vi : VideoInfo)
    (fs : List (Option (List Char × List Char))) (gq : Option TranscriptData)
    (h1 : firstSome (fs.map extract_transcript_piped) = none)
    (h2 : transcribe_audio_groq gq = none) :
    (get_transcript fs none gq).result = none ∧
    process_video url (some vid) (some vi) (get_transcript fs none gq).result =
      { success := true, error := none, video_id := some vid, video_url := some url,
        platform := some "youtube".toList, video_info := some vi,
        transcript := some none, transcript_available := some false } := by
  have hr : get_transcript fs none gq = ⟨none, true, true⟩ := by
    simp [get_transcript, h1, extract_transcript_ytdlp, h2]
  rw [hr]
  exact ⟨rfl, rfl⟩

/-- Witness for C2: one failing Piped instance, no yt-dlp subtitles, failed
audio download; the envelope still reports success with no transcript. -/
theorem C2_all_tiers_fail_soft_witness :
    (get_transcript [none] none none).result = none ∧
    process_video "u".toList (some "v".toList)
        (some ⟨"v".toList, [], [], 0, [], [], 0, [], "piped".toList⟩)
        (get_transcript [none] none none).result =
      { success := true, error := none, video_id := some "v".toList,
        video_url := some "u".toList, platform := some "youtube".toList,
        video_info := some ⟨"v".toList, [], [], 0, [], [], 0, [], "piped".toList⟩,
        transcript := some none, transcript_available := some false } :=
  C2_all_tiers_fail_soft "u".toList "v".toList _ [none] none rfl rfl

/-- C8: on the two-cue SRT document the parser yields exactly the two
specified segments with their texts and start/end seconds (word timings
interpolated evenly); empty input yields an empty segment list; a cue with
a timing line but no text is dropped; multi-line captions are concatenated
with single spaces. -/
theorem C8_subtitle_parsing :
    parse_subtitle_content
        "1\n00:00:01,000 --> 00:00:03,000\nHello world\n\n2\n00:00:03,000 --> 00:00:05,000\nSecond line\n".toList =
      { segments := [
          { start := 1, stop := 3, text := "Hello world".toList,
            words := [⟨"Hello".toList, 1, 2⟩, ⟨"world".toList, 2, 3⟩] },
          { start := 3, stop := 5, text := "Second line".toList,
            words := [⟨"Second".toList, 3, 4⟩, ⟨"line".toList, 4, 5⟩] }],
        duration := 5, language := "en".toList } ∧
    parse_subtitle_content "".toList =
      { segments := [], duration := 0, language := "en".toList } ∧
    parse_subtitle_content "1\n00:00:01,000 --> 00:00:03,000\n\n".toList =
      { segments := [], duration := 0, language := "en".toList } ∧
    parse_subtitle_content "00:00:01,000 --> 00:00:03,000\nHello\nworld\n".toList =
      { segments := [
          { start := 1, stop := 3, text := "Hello world".toList,
            words := [⟨"Hello".toList, 1, 2⟩, ⟨"world".toList, 2, 3⟩] }],
        duration := 3, language := "en".toList } := by
  refine ⟨?_, ?_, ?_, ?_⟩
  · simp [parse_subtitle_content, pySplitChar, subtitleScanLine,
        subtitleScanFinish, synthWords, curHasText, pendingSegs, pyStrip, pyIsDigit,
        containsSub, pySplitStr, pyWords, timestamp_to_seconds, pyReplaceChar,
        pyInt, pyFloat, pyFloatUnsigned, pyFloatMantissa, splitExp, splitDot,
        digitsToNat, fracValue, List.splitOnP, List.splitOnP.go, List.foldlM,
        List.range, List.range.loop, List.flatMap, List.zipWith]
    norm_num
  · simp [parse_subtitle_content, pySplitChar, subtitleScanLine,
        subtitleScanFinish, synthWords, curHasText, pendingSegs, pyStrip, pyIsDigit,
        containsSub, pySplitStr, pyWords, timestamp_to_seconds, pyReplaceChar,
        pyInt, pyFloat, pyFloatUnsigned, pyFloatMantissa, splitExp, splitDot,
        digitsToNat, fracValue, List.splitOnP, List.splitOnP.go, List.foldlM,
        List.range, List.range.loop, List.flatMap, List.zipWith]
  · simp [parse_subtitle_content, pySplitChar, subtitleScanLine,
        subtitleScanFinish, synthWords, curHasText, pendingSegs, pyStrip, pyIsDigit,
        containsSub, pySplitStr, pyWords, timestamp_to_seconds, pyReplaceChar,
        pyInt, pyFloat, pyFloatUnsigned, pyFloatMantissa, splitExp, splitDot,
        digitsToNat, fracValue, List.splitOnP, List.splitOnP.go, List.foldlM,
        List.range, List.range.loop, List.flatMap, List.zipWith]
  · simp [parse_subtitle_content, pySplitChar, subtitleScanLine,
        subtitleScanFinish, synthWords, curHasText, pendingSegs, pyStrip, pyIsDigit,
        containsSub, pySplitStr, pyWords, timestamp_to_seconds, pyReplaceChar,
        pyInt, pyFloat, pyFloatUnsigned, pyFloatMantissa, splitExp, splitDot,
        digitsToNat, fracValue, List.splitOnP, List.splitOnP.go, List.foldlM,
        List.range, List.range.loop, List.flatMap, List.zipWith]
    norm_num

/-! ## Lemmas: chunked audio transcription -/

/-- The chunk loop of `_transcribe_large_audio_groq` computes, for every
chunk, its sentences shifted by the cumulative duration of all preceding
chunks, and accumulates the total duration. -/
theorem chunkFold_eq (totalMs : Nat) (cr : Nat → Option GroqTranscript) :
    ∀ n, (List.range n).foldl (chunkStep totalMs cr) ([], 0) =
      ((List.range n).flatMap (chunkShifted totalMs cr), chunkOffset totalMs n) := by
  intro n
  induction n with
  | zero => simp [chunkOffset]
  | succ n ih =>
    rw [List.range_succ, List.foldl_append, ih, List.flatMap_append]
    have hoff : chunkOffset totalMs (n + 1) =
        chunkOffset totalMs n + (chunkLengthMs totalMs n : ℚ) / 1000 := by
      simp [chunkOffset, List.range_succ]
      ring
    simp only [List.foldl_cons, List.foldl_nil, chunkStep, chunkShifted,
      List.flatMap_cons, List.flatMap_nil, List.append_nil]
    cases hcr : cr n with
    | none => simp [hoff]
    | some cd =>
      by_cases he : cd.sentences.isEmpty <;> simp [he, hoff]

/-- C3: a file over the 25 MB ceiling is routed to chunked transcription;
the merged result is the concatenation over 10-minute chunks of each
chunk's sentences with every sentence's and word's timestamps shifted by
the cumulative duration of the preceding chunks; concretely, three
10-minute chunks each producing a sentence at local time 5s merge to
sentences starting at 5s, 605s and 1205s. -/
theorem C3_chunked_audio_offsets (totalMs : Nat) (cr : Nat → Option GroqTranscript)
    (lang : List Char) :
    (∀ size dr fb, size > 25 * 1024 * 1024 →
       transcribe_with_groq true size totalMs cr dr fb lang =
         transcribe_large_audio_groq totalMs cr lang) ∧
    (∀ gt, transcribe_large_audio_groq totalMs cr lang = some gt →
       gt.sentences =
         (List.range (numChunks totalMs)).flatMap (chunkShifted totalMs cr)) ∧
    (transcribe_large_audio_groq 1800000
        (fun _ => some { language := "en".toList,
                         sentences := [⟨"hi".toList, 5, 6, [⟨"hi".toList, 5, 6⟩]⟩],
                         total_duration := 6, word_count := 1, sentence_count := 1,
                         api_used := "groq_whisper".toList }) "en".toList =
      some { language := "en".toList,
             sentences := [⟨"hi".toList, 5, 6, [⟨"hi".toList, 5, 6⟩]⟩,
                           ⟨"hi".toList, 605, 606, [⟨"hi".toList, 605, 606⟩]⟩,
                           ⟨"hi".toList, 1205, 1206, [⟨"hi".toList, 1205, 1206⟩]⟩],
             total_duration := 1800, word_count := 3, sentence_count := 3,
             api_used := "groq_whisper_chunked".toList,
             chunks_processed := some 3 }) := by
  refine ⟨?_, ?_, ?_⟩
  · intro size dr fb hsize
    simp [transcribe_with_groq, hsize]
  · intro gt hgt
    unfold transcribe_large_audio_groq at hgt
    rw [chunkFold_eq] at hgt
    by_cases he : ((List.range (numChunks totalMs)).flatMap (chunkShifted totalMs cr)).isEmpty
    · simp [he] at hgt
    · simp only [he, if_neg, Bool.false_eq_true, not_false_eq_true, if_false] at hgt
      cases hgt
      rfl
  · unfold transcribe_large_audio_groq
    rw [chunkFold_eq]
    norm_num [numChunks, chunkMs, chunkShifted, chunkOffset, chunkLengthMs,
      shiftSentence, shiftWord, List.range, List.range.loop, pyWords,
      List.splitOnP, List.splitOnP.go, Char.isWhitespace]
    decide

/-- Witness for C3: a 26 MB file is routed to chunking, and the concrete
three-chunk merge yields sentences at 5s, 605s, 1205s. -/
theorem C3_chunked_audio_offsets_witness :
    (transcribe_with_groq true (26 * 1024 * 1024) 1800000
        (fun _ => some { language := "en".toList,
                         sentences := [⟨"hi".toList, 5, 6, [⟨"hi".toList, 5, 6⟩]⟩],
                         total_duration := 6, word_count := 1, sentence_count := 1,
                         api_used := "groq_whisper".toList }) none none "en".toList =
      transcribe_large_audio_groq 1800000
        (fun _ => some { language := "en".toList,
                         sentences := [⟨"hi".toList, 5, 6, [⟨"hi".toList, 5, 6⟩]⟩],
                         total_duration := 6, word_count := 1, sentence_count := 1,
                         api_used := "groq_whisper".toList }) "en".toList) ∧
    (transcribe_large_audio_groq 1800000
        (fun _ => some { language := "en".toList,
                         sentences := [⟨"hi".toList, 5, 6, [⟨"hi".toList, 5, 6⟩]⟩],
                         total_duration := 6, word_count := 1, sentence_count := 1,
                         api_used := "groq_whisper".toList }) "en".toList).map
      (fun gt => gt.sentences.map Sentence.start) = some [5, 605, 1205] := by
  have h := C3_chunked_audio_offsets 1800000
    (fun _ => some { language := "en".toList,
                     sentences := [⟨"hi".toList, 5, 6, [⟨"hi".toList, 5, 6⟩]⟩],
                     total_duration := 6, word_count := 1, sentence_count := 1,
                     api_used := "groq_whisper".toList }) "en".toList
  refine ⟨h.1 (26 * 1024 * 1024) none none (by norm_num), ?_⟩
  rw [h.2.2]
  rfl

/-! ## Lemmas: context builder -/

/-- The context loop appends whole rendered lines, in order, as a prefix;
the truncation marker is appended exactly when a line was dropped; the kept
prefix fits the budget and the next line would exceed it. -/
theorem contextLoop_greedy (B : Int) (sents : List Sentence) :
    ∀ cur : Int, ∃ k ≤ (renderedLines sents).length,
      contextLoop B sents cur =
        (renderedLines sents).take k ++
          (if k < (renderedLines sents).length then [truncationMarker] else []) ∧
      (k = 0 ∨ cur + linesLen ((renderedLines sents).take k) ≤ B) ∧
      (k < (renderedLines sents).length →
        B < cur + linesLen ((renderedLines sents).take (k + 1))) := by
  induction sents with
  | nil =>
    intro cur
    exact ⟨0, by simp [renderedLines], by simp [contextLoop, renderedLines], Or.inl rfl,
      by simp [renderedLines]⟩
  | cons s rest ih =>
    intro cur
    by_cases hskip : (pyStrip s.text).isEmpty
    · have hnil : pyStrip s.text = [] := List.isEmpty_iff.1 hskip
      have hlines : renderedLines (s :: rest) = renderedLines rest := by
        simp [renderedLines, List.filterMap_cons, hnil]
      have hloop : contextLoop B (s :: rest) cur = contextLoop B rest cur := by
        simp [contextLoop, hskip]
      rw [hlines, hloop]
      exact ih cur
    · have hnil : ¬ pyStrip s.text = [] := by simpa [List.isEmpty_iff] using hskip
      have hlines : renderedLines (s :: rest) =
          renderLine s.start (pyStrip s.text) :: renderedLines rest := by
        simp [renderedLines, List.filterMap_cons, hnil]
      set line := renderLine s.start (pyStrip s.text) with hline
      by_cases hfit : B < cur + (line.length : Int)
      · refine ⟨0, by simp, ?_, Or.inl rfl, ?_⟩
        · rw [hlines]
          simp [contextLoop, hskip, hfit]
        · intro _
          rw [hlines]
          simpa [linesLen] using hfit
      · rcases ih (cur + (line.length : Int)) with ⟨k, hk, heq, hcond2, hcond3⟩
        refine ⟨k + 1, ?_, ?_, ?_, ?_⟩
        · rw [hlines]; simpa using Nat.succ_le_succ hk
        · rw [hlines]
          simp only [contextLoop, hskip, hfit, if_false, List.take_succ_cons]
          rw [heq]
          simp [Nat.succ_lt_succ_iff]
        · right
          rw [hlines]
          rcases hcond2 with h0 | hle
          · subst h0
            simp only [List.take_succ_cons, List.take_zero, linesLen, List.map_cons,
              List.map_nil, List.sum_cons, List.sum_nil]
            push_cast
            omega
          · simp only [List.take_succ_cons, linesLen, List.map_cons, List.sum_cons] at hle ⊢
            push_cast at hle ⊢
            omega
        · intro hlt
          rw [hlines] at hlt ⊢
          simp only [List.length_cons, Nat.succ_lt_succ_iff] at hlt
          have := hcond3 hlt
          simp only [List.take_succ_cons, linesLen, List.map_cons, List.sum_cons] at this ⊢
          push_cast at this ⊢
          omega

/-- C4: `_prepare_context` computes the character budget
`4 * maxContextTokens - 2000 - len(userQuery)` and emits a prefix of the
rendered `'[HH:MM:SS] text'` lines in segment order (never a partial line,
never reordered), followed by the literal truncation marker exactly when a
line was dropped; the kept prefix fits the budget and adding the next line
would exceed it. Concretely, two 9-character lines against a budget of 17
(= budget+1 rendered) keep only the first line and end with the marker. -/
theorem C4_context_builder_truncation (sents : List Sentence) (q : List Char) (maxCtx : Int) :
    (∃ k ≤ (renderedLines sents).length,
      prepare_context (some sents) q maxCtx =
        List.intercalate [Char.ofNat 10]
          ((renderedLines sents).take k ++
            (if k < (renderedLines sents).length then [truncationMarker] else [])) ∧
      (k = 0 ∨ linesLen ((renderedLines sents).take k) ≤
        maxCtx * 4 - 2000 - (q.length : Int)) ∧
      (k < (renderedLines sents).length →
        maxCtx * 4 - 2000 - (q.length : Int) <
          linesLen ((renderedLines sents).take (k + 1)))) ∧
    prepare_context (some [⟨"a".toList, 0, 1, []⟩, ⟨"b".toList, 0, 1, []⟩])
        "abc".toList 505 =
      "[00:00] a\n... [transcript truncated]".toList := by
  constructor
  · rcases contextLoop_greedy (maxCtx * 4 - 2000 - (q.length : Int)) sents 0
      with ⟨k, hk, heq, h2, h3⟩
    refine ⟨k, hk, ?_, ?_, ?_⟩
    · show List.intercalate [Char.ofNat 10]
        (contextLoop (maxCtx * 4 - 2000 - (q.length : Int)) sents 0) = _
      rw [heq]
    · rcases h2 with h | h
      · exact Or.inl h
      · right; simpa using h
    · intro h
      simpa using h3 h
  · show List.intercalate [Char.ofNat 10]
      (contextLoop (505 * 4 - 2000 - (("abc".toList.length : ℕ) : Int))
        [⟨"a".toList, 0, 1, []⟩, ⟨"b".toList, 0, 1, []⟩] 0) = _
    norm_num [contextLoop, pyStrip, renderLine, truncationMarker,
      format_timestamp, ratFloor_eq, pyMod, List.intercalate]
    norm_num [fmt2, Nat.toDigits, Nat.toDigitsCore, Nat.digitChar, Int.toNat,
      Char.isWhitespace]
    decide

/-- Witness for C4: the concrete budget+1 boundary instance. -/
theorem C4_context_builder_truncation_witness :
    prepare_context (some [⟨"a".toList, 0, 1, []⟩, ⟨"b".toList, 0, 1, []⟩])
        "abc".toList 505 =
      "[00:00] a\n... [transcript truncated]".toList :=
  (C4_context_builder_truncation [] [] 0).2

/-- C9: the query classifier tests keyword membership on the lower-cased
input in a fixed priority order; the input "explain the translation of this
word" matches the word_analysis, translation and explanation keyword sets
and resolves to word_analysis, the first of them in priority order, in both
classifier variants. -/
theorem C9_classifier_priority :
    classify_query "explain the translation of this word".toList =
      "word_analysis".toList ∧
    queryClassifier_classify "explain the translation of this word".toList =
      "word_analysis".toList ∧
    anyKeyword ["word".toList, "vocabulary".toList, "pronunciation".toList,
        "meaning".toList]
      (pyLower "explain the translation of this word".toList) = true ∧
    anyKeyword ["translate".toList, "hindi".toList, "translation".toList]
      (pyLower "explain the translation of this word".toList) = true ∧
    anyKeyword ["explain".toList, "what is".toList, "how".toList]
      (pyLower "explain the translation of this word".toList) = true := by
  decide

set_option maxRecDepth 10000 in
/-- C10: on "See [01:02:03] and [5:06]" the SyncManager annotator emits two
markers with seconds 3723 and 306, keeping the matched bracket text as the
visible label and the surrounding text unchanged; the duplicate
`_add_sync_markers` instead emits 360 for the MM:SS match `[5:06]` (it
reads the minutes from the seconds group when the optional group is
absent). -/
theorem C10_sync_annotator_coverage :
    add_clickable_timestamps "See [01:02:03] and [5:06]".toList =
      ("See <span class=\"timestamp\" data-time=\"3723\" " ++
        "onclick=\"jumpToTime(3723)\">[01:02:03]</span> and " ++
        "<span class=\"timestamp\" data-time=\"306\" " ++
        "onclick=\"jumpToTime(306)\">[5:06]</span>").toList ∧
    add_sync_markers "See [01:02:03] and [5:06]".toList =
      ("See <span class=\"sync-timestamp\" data-time=\"3723\" " ++
        "data-sync=\"true\">[01:02:03]</span> and " ++
        "<span class=\"sync-timestamp\" data-time=\"360\" " ++
        "data-sync=\"true\">[5:06]</span>").toList := by
  exact ⟨by decide, by decide⟩

/-! ## Lemmas: response cache -/

theorem lookupKey_none_iff (c : CacheState) (key : List Char) :
    lookupKey c key = none ↔ ∀ kv ∈ c, kv.1 ≠ key := by
  induction c with
  | nil => simp [lookupKey]
  | cons kv rest ih =>
    constructor
    · intro h kv' hkv'
      simp only [lookupKey] at h
      by_cases hk : kv.1 = key
      · rw [if_pos hk] at h
        cases h
      · rw [if_neg hk] at h
        rcases List.mem_cons.1 hkv' with rfl | hmem
        · exact hk
        · exact ih.1 h kv' hmem
    · intro h
      simp only [lookupKey]
      rw [if_neg (h kv (List.mem_cons_self kv rest))]
      exact ih.2 fun kv' hkv' => h kv' (List.mem_cons_of_mem kv hkv')

theorem lookupKey_append_none (c d : CacheState) (key : List Char)
    (h : lookupKey c key = none) : lookupKey (c ++ d) key = lookupKey d key := by
  induction c with
  | nil => simp
  | cons kv rest ih =>
    simp only [lookupKey] at h
    by_cases hk : kv.1 = key
    · simp [hk] at h
    · simp only [List.cons_append, lookupKey, if_neg hk] at *
      exact ih h

theorem eraseIdx_subset_self (c : CacheState) (i : Nat) : c.eraseIdx i ⊆ c := by
  rw [List.eraseIdx_eq_take_drop_succ]
  intro x hx
  rcases List.mem_append.1 hx with h | h
  · exact List.take_subset _ _ h
  · exact List.drop_subset _ _ h

theorem lookupKey_removeOldest_none (c : CacheState) (key : List Char)
    (h : lookupKey c key = none) : lookupKey (removeOldest c) key = none := by
  rw [lookupKey_none_iff] at h ⊢
  intro kv hkv
  apply h
  unfold removeOldest at hkv
  rcases hf : firstMinAux (c.map fun kv => kv.2.cache_time) with _ | ⟨i, v⟩
  · rw [hf] at hkv
    exact hkv
  · rw [hf] at hkv
    exact eraseIdx_subset_self c i hkv

theorem lookupKey_cache_response (c : CacheState) (key : List Char)
    (resp : QueryResponse) (now : ℚ)
    (h : lookupKey c key = none) :
    lookupKey (cache_response c key resp now) key = some ⟨resp, now⟩ := by
  have h1 : lookupKey (if c.length ≥ cache_max_size then removeOldest c else c) key = none := by
    split
    · exact lookupKey_removeOldest_none c key h
    · exact h
  show lookupKey
    (insertKey (if c.length ≥ cache_max_size then removeOldest c else c) key ⟨resp, now⟩)
    key = some ⟨resp, now⟩
  unfold insertKey
  rw [h1]
  show lookupKey
    ((if c.length ≥ cache_max_size then removeOldest c else c) ++ [(key, ⟨resp, now⟩)])
    key = some ⟨resp, now⟩
  rw [lookupKey_append_none _ _ _ h1]
  simp [lookupKey]

/-- C5: two identical sequential queries with the same (sessionId, modelId,
query, transcript sample) invoke the provider adapter exactly once: the
first call misses the cache, dispatches, and caches its successful
response; the second call (within the TTL) hits the cache, returns that
response with cached=true, and invokes no provider. -/
theorem C5_cache_hit_skips_dispatch
    (cache : CacheState) (now1 now2 : ℚ) (sid : Option (List Char))
    (mid query tsample : List Char) (available : List (List Char))
    (st sync : Bool) (respA respB : QueryResponse)
    (hmiss : lookupKey cache (generate_cache_key sid mid query tsample) = none)
    (hmem : mid ∈ available) (hsucc : respA.success = true)
    (httl : now2 - now1 < cache_ttl) :
    (process_query cache now1 sid mid query tsample available st sync respA).2.2 = 1 ∧
    (process_query
      (process_query cache now1 sid mid query tsample available st sync respA).2.1
      now2 sid mid query tsample available st sync respB).2.2 = 0 ∧
    (process_query
      (process_query cache now1 sid mid query tsample available st sync respA).2.1
      now2 sid mid query tsample available st sync respB).1 =
      { (process_query cache now1 sid mid query tsample available st sync respA).1
        with cached := some true } := by
  by_cases hss : (sync && st) = true
  · have h1 : process_query cache now1 sid mid query tsample available st sync respA =
        (⟨true, add_sync_markers respA.text, respA.error, respA.cached, some false⟩,
         cache_response cache (generate_cache_key sid mid query tsample)
           ⟨true, add_sync_markers respA.text, respA.error, respA.cached, some false⟩ now1,
         1) := by
      simp [process_query, get_cached_response, hmiss, hmem, hsucc, hss]
    have hlook := lookupKey_cache_response cache
      (generate_cache_key sid mid query tsample)
      ⟨true, add_sync_markers respA.text, respA.error, respA.cached, some false⟩ now1 hmiss
    rw [h1]
    refine ⟨rfl, ?_, ?_⟩ <;>
      simp [process_query, get_cached_response, hlook, httl]
  · have h1 : process_query cache now1 sid mid query tsample available st sync respA =
        (⟨true, respA.text, respA.error, respA.cached, some false⟩,
         cache_response cache (generate_cache_key sid mid query tsample)
           ⟨true, respA.text, respA.error, respA.cached, some false⟩ now1,
         1) := by
      simp [process_query, get_cached_response, hmiss, hmem, hsucc, hss]
    have hlook := lookupKey_cache_response cache
      (generate_cache_key sid mid query tsample)
      ⟨true, respA.text, respA.error, respA.cached, some false⟩ now1 hmiss
    rw [h1]
    refine ⟨rfl, ?_, ?_⟩ <;>
      simp [process_query, get_cached_response, hlook, httl]


/-- Witness for C5: an empty cache, one available model, a successful
provider response; the first call dispatches once, the second call (with a
different would-be provider response, showing no provider is consulted)
dispatches zero times and returns the first response with cached=true. -/
theorem C5_cache_hit_skips_dispatch_witness :
    (process_query [] 0 none "m".toList "q".toList "t".toList ["m".toList] true true
        ⟨true, "ans".toList, none, none, none⟩).2.2 = 1 ∧
    (process_query
      (process_query [] 0 none "m".toList "q".toList "t".toList ["m".toList] true true
        ⟨true, "ans".toList, none, none, none⟩).2.1
      1 none "m".toList "q".toList "t".toList ["m".toList] true true
      ⟨true, "other".toList, none, none, none⟩).2.2 = 0 ∧
    (process_query
      (process_query [] 0 none "m".toList "q".toList "t".toList ["m".toList] true true
        ⟨true, "ans".toList, none, none, none⟩).2.1
      1 none "m".toList "q".toList "t".toList ["m".toList] true true
      ⟨true, "other".toList, none, none, none⟩).1 =
      { (process_query [] 0 none "m".toList "q".toList "t".toList ["m".toList] true true
          ⟨true, "ans".toList, none, none, none⟩).1 with cached := some true } :=
  C5_cache_hit_skips_dispatch [] 0 1 none "m".toList "q".toList "t".toList
    ["m".toList] true true ⟨true, "ans".toList, none, none, none⟩
    ⟨true, "other".toList, none, none, none⟩ rfl (by decide) rfl
    (by norm_num [cache_ttl])

end InstaLearning
